import Mathlib

/-!
Formal model of the baroclinic cyclogenesis simulation (`src/main.rs`).

Floating-point (`f64`) values are embedded as real numbers, `u32` loop
indices as naturals, `Result` as `Except`, and the Rust mutation of
`ThermalAnomaly::intensity` as explicit state passing: each stepping
operation returns the updated anomaly together with its result record.
-/

open scoped Classical

/-- Physical constants bundle: Earth rotation rate (rad/s), gravity (m/s²),
reference temperature (K). -/
structure PhysicalConstants where
  earth_omega : ℝ
  gravity : ℝ
  base_temp : ℝ

/-- Default physical constants, as in `PhysicalConstants::default`. -/
noncomputable def PhysicalConstants.default : PhysicalConstants :=
  ⟨7.2921e-5, 9.81, 288.15⟩

/-- Error type mirroring `MeteoError`, each variant carrying the offending value. -/
inductive MeteoError where
  | InvalidLatitude (v : ℝ)
  | InvalidPressure (v : ℝ)
  | InvalidTemperature (v : ℝ)
  | InvalidAltitude (v : ℝ)

/-- Per-step development result record. -/
structure DevelopmentResult where
  vertical_velocity : ℝ
  relative_vorticity : ℝ
  hour : ℕ

/-- Geographic position and atmospheric conditions. -/
structure Position where
  latitude : ℝ
  altitude : ℝ
  pressure : ℝ

/-- Validating constructor `Position::new`; the early returns of the Rust code
become nested if-else. -/
noncomputable def Position.new (latitude altitude pressure : ℝ) :
    Except MeteoError Position :=
  if ¬(-90 ≤ latitude ∧ latitude ≤ 90) then
    Except.error (MeteoError.InvalidLatitude latitude)
  else if altitude < -400 ∨ altitude > 20000 then
    Except.error (MeteoError.InvalidAltitude altitude)
  else if pressure < 100 ∨ pressure > 1100 then
    Except.error (MeteoError.InvalidPressure pressure)
  else
    Except.ok ⟨latitude, altitude, pressure⟩

/-- Thermal anomaly state. -/
structure ThermalAnomaly where
  temperature_delta : ℝ
  position : Position
  is_cyclonic : Bool
  intensity : ℝ
  constants : PhysicalConstants

/-- Validating constructor `ThermalAnomaly::new`. -/
noncomputable def ThermalAnomaly.new (temperature_delta : ℝ) (position : Position)
    (constants : PhysicalConstants) : Except MeteoError ThermalAnomaly :=
  if ¬(-50 ≤ temperature_delta ∧ temperature_delta ≤ 50) then
    Except.error (MeteoError.InvalidTemperature temperature_delta)
  else
    Except.ok ⟨temperature_delta, position, decide (temperature_delta > 0), 1, constants⟩

/-- `ThermalAnomaly::compute_coriolis_force`. -/
noncomputable def ThermalAnomaly.compute_coriolis_force (a : ThermalAnomaly) : ℝ :=
  a.constants.earth_omega * Real.sin (a.position.latitude * Real.pi / 180)

/-- `ThermalAnomaly::compute_relative_vorticity`; RADIUS = 5.0e5 and
AMPLIFICATION = 1.0e3 are written as the numerals 500000 and 1000. -/
noncomputable def ThermalAnomaly.compute_relative_vorticity (a : ThermalAnomaly)
    (thermal_wind : ℝ) : ℝ :=
  let base_vorticity := thermal_wind / 500000
  let altitude_factor : ℝ := if a.position.pressure < 500 then 2 else 1
  if a.is_cyclonic then
    base_vorticity * a.intensity * altitude_factor * 1000
  else
    (-base_vorticity) * a.intensity * altitude_factor * 1000

/-- `ThermalAnomaly::develop_baroclinic_perturbation`; the Rust method first
overwrites `self.intensity` and then reads only the updated state, so the
model updates the record first and computes everything from the update. -/
noncomputable def ThermalAnomaly.develop_baroclinic_perturbation (a : ThermalAnomaly)
    (hour : ℕ) : ThermalAnomaly × DevelopmentResult :=
  let a' := { a with intensity := 1 + (hour : ℝ) / 12 }
  let coriolis := a'.compute_coriolis_force
  let base_wind := a'.temperature_delta / a'.constants.base_temp * a'.constants.gravity * 1000
  let thermal_wind := if a'.is_cyclonic then base_wind * coriolis else (-base_wind) * coriolis
  let pressure_factor := Real.sqrt (1000 / a'.position.pressure)
  let altitude_factor := Real.exp (-a'.position.altitude / 8000)
  let vertical_velocity :=
    (if a'.position.pressure > 500 then
      thermal_wind * 0.1 * pressure_factor * altitude_factor
    else
      (-thermal_wind) * 0.1 * pressure_factor * altitude_factor) * a'.intensity
  let relative_vorticity := a'.compute_relative_vorticity thermal_wind
  (a', ⟨vertical_velocity, relative_vorticity, hour⟩)

/-- Main simulation scenario state. -/
structure BaroclinicCyclogenesis where
  surface_anomaly : ThermalAnomaly
  altitude_anomaly : ThermalAnomaly
  baroclinic_zone : Bool

/-- `BaroclinicCyclogenesis::new`; the nested matches mirror the early-return
`?` operator of the Rust code. -/
noncomputable def BaroclinicCyclogenesis.new (surface_temp altitude_temp latitude : ℝ) :
    Except MeteoError BaroclinicCyclogenesis :=
  match Position.new latitude 0 1013 with
  | Except.error e => Except.error e
  | Except.ok surface_position =>
    match Position.new latitude 5000 500 with
    | Except.error e => Except.error e
    | Except.ok altitude_position =>
      match ThermalAnomaly.new surface_temp surface_position PhysicalConstants.default with
      | Except.error e => Except.error e
      | Except.ok surface_anomaly =>
        match ThermalAnomaly.new altitude_temp altitude_position PhysicalConstants.default with
        | Except.error e => Except.error e
        | Except.ok altitude_anomaly =>
          Except.ok ⟨surface_anomaly, altitude_anomaly, true⟩

/-- One iteration of the `simulate_interaction` loop body at a given hour:
both anomalies are stepped and the combined record is produced. -/
noncomputable def BaroclinicCyclogenesis.simStep (b : BaroclinicCyclogenesis) (hour : ℕ) :
    BaroclinicCyclogenesis × DevelopmentResult :=
  let s := b.surface_anomaly.develop_baroclinic_perturbation hour
  let t := b.altitude_anomaly.develop_baroclinic_perturbation hour
  let interaction_factor : ℝ := if b.baroclinic_zone then 1.5 * (1 + (hour : ℝ) / 24) else 1
  (⟨s.1, t.1, b.baroclinic_zone⟩,
   ⟨(s.2.vertical_velocity + t.2.vertical_velocity) * interaction_factor,
    (s.2.relative_vorticity + t.2.relative_vorticity) * interaction_factor,
    hour⟩)

/-- The simulation loop from a starting hour for a number of remaining steps,
threading the mutated scenario state. -/
noncomputable def BaroclinicCyclogenesis.simFrom :
    BaroclinicCyclogenesis → ℕ → ℕ → BaroclinicCyclogenesis × List DevelopmentResult
  | b, _, 0 => (b, [])
  | b, hour, Nat.succ n =>
    let s := b.simStep hour
    let rest := BaroclinicCyclogenesis.simFrom s.1 (hour + 1) n
    (rest.1, s.2 :: rest.2)

/-- `BaroclinicCyclogenesis::simulate_interaction`: the loop over hours
`0..time_steps`, returning the final state and the ordered result list. -/
noncomputable def BaroclinicCyclogenesis.simulate_interaction (b : BaroclinicCyclogenesis)
    (time_steps : ℕ) : BaroclinicCyclogenesis × List DevelopmentResult :=
  b.simFrom 0 time_steps

/-- Successful Position construction when all three bounds hold. -/
lemma Position.new_valid (lat alt p : ℝ) (h1 : -90 ≤ lat) (h2 : lat ≤ 90)
    (h3 : -400 ≤ alt) (h4 : alt ≤ 20000) (h5 : 100 ≤ p) (h6 : p ≤ 1100) :
    Position.new lat alt p = Except.ok ⟨lat, alt, p⟩ := by
  unfold Position.new
  have hA : ¬¬(-90 ≤ lat ∧ lat ≤ 90) := not_not_intro ⟨h1, h2⟩
  have hB : ¬(alt < -400 ∨ alt > 20000) := by push_neg; exact ⟨h3, h4⟩
  have hC : ¬(p < 100 ∨ p > 1100) := by push_neg; exact ⟨h5, h6⟩
  rw [if_neg hA, if_neg hB, if_neg hC]

/-- Position construction rejects an out-of-range latitude first. -/
lemma Position.new_rejects_lat (lat alt p : ℝ) (h : ¬(-90 ≤ lat ∧ lat ≤ 90)) :
    Position.new lat alt p = Except.error (MeteoError.InvalidLatitude lat) := by
  unfold Position.new
  rw [if_pos h]

/-- Position construction rejects an out-of-range altitude second. -/
lemma Position.new_err_alt (lat alt p : ℝ) (h1 : -90 ≤ lat ∧ lat ≤ 90)
    (h2 : alt < -400 ∨ alt > 20000) :
    Position.new lat alt p = Except.error (MeteoError.InvalidAltitude alt) := by
  unfold Position.new
  rw [if_neg (not_not_intro h1), if_pos h2]

/-- Position construction rejects an out-of-range pressure third. -/
lemma Position.new_err_pres (lat alt p : ℝ) (h1 : -90 ≤ lat ∧ lat ≤ 90)
    (h2 : ¬(alt < -400 ∨ alt > 20000)) (h3 : p < 100 ∨ p > 1100) :
    Position.new lat alt p = Except.error (MeteoError.InvalidPressure p) := by
  unfold Position.new
  rw [if_neg (not_not_intro h1), if_neg h2, if_pos h3]

/-- ThermalAnomaly construction rejects an out-of-range temperature delta. -/
lemma ThermalAnomaly.new_err (td : ℝ) (pos : Position) (c : PhysicalConstants)
    (h : ¬(-50 ≤ td ∧ td ≤ 50)) :
    ThermalAnomaly.new td pos c = Except.error (MeteoError.InvalidTemperature td) := by
  unfold ThermalAnomaly.new
  rw [if_pos h]

/-- Successful ThermalAnomaly construction for an in-range temperature delta. -/
lemma ThermalAnomaly.new_accepts (td : ℝ) (pos : Position) (c : PhysicalConstants)
    (h1 : -50 ≤ td) (h2 : td ≤ 50) :
    ThermalAnomaly.new td pos c = Except.ok ⟨td, pos, decide (td > 0), 1, c⟩ := by
  unfold ThermalAnomaly.new
  rw [if_neg (not_not_intro ⟨h1, h2⟩)]

/-- Successful construction with a strictly positive delta yields a cyclonic anomaly. -/
lemma ThermalAnomaly.new_cyclonic (td : ℝ) (pos : Position) (c : PhysicalConstants)
    (h1 : -50 ≤ td) (h2 : td ≤ 50) (h3 : 0 < td) :
    ThermalAnomaly.new td pos c = Except.ok ⟨td, pos, true, 1, c⟩ := by
  rw [ThermalAnomaly.new_accepts td pos c h1 h2, decide_eq_true h3]

/-- Successful construction with a nonpositive delta yields a non-cyclonic anomaly. -/
lemma ThermalAnomaly.new_noncyclonic (td : ℝ) (pos : Position) (c : PhysicalConstants)
    (h1 : -50 ≤ td) (h2 : td ≤ 50) (h3 : td ≤ 0) :
    ThermalAnomaly.new td pos c = Except.ok ⟨td, pos, false, 1, c⟩ := by
  rw [ThermalAnomaly.new_accepts td pos c h1 h2, decide_eq_false (not_lt.mpr h3)]

/-- Inversion: a successful ThermalAnomaly construction determines every field. -/
lemma ThermalAnomaly.new_elim (td : ℝ) (pos : Position) (c : PhysicalConstants)
    (a : ThermalAnomaly) (h : ThermalAnomaly.new td pos c = Except.ok a) :
    a = ⟨td, pos, decide (td > 0), 1, c⟩ := by
  by_cases hr : -50 ≤ td ∧ td ≤ 50
  · rw [ThermalAnomaly.new_accepts td pos c hr.1 hr.2] at h
    exact (Except.ok.inj h).symm
  · rw [ThermalAnomaly.new_err td pos c hr] at h
    exact absurd h (by simp)

/-- Stepping an anomaly overwrites the intensity with `1 + hour/12`. -/
lemma ThermalAnomaly.develop_fst (a : ThermalAnomaly) (h : ℕ) :
    (a.develop_baroclinic_perturbation h).1 = { a with intensity := 1 + (h : ℝ) / 12 } := rfl

/-- The hour field of a step result is the supplied hour. -/
lemma ThermalAnomaly.develop_snd_hour (a : ThermalAnomaly) (h : ℕ) :
    (a.develop_baroclinic_perturbation h).2.hour = h := rfl

/-- Stepping ignores the stored intensity: it is overwritten before any read. -/
lemma ThermalAnomaly.develop_intensity_irrel (a : ThermalAnomaly) (x : ℝ) (h : ℕ) :
    ({ a with intensity := x } : ThermalAnomaly).develop_baroclinic_perturbation h =
      a.develop_baroclinic_perturbation h := rfl

/-- The state after one loop iteration: both intensities set to `1 + hour/12`. -/
lemma BaroclinicCyclogenesis.simStep_fst (b : BaroclinicCyclogenesis) (h : ℕ) :
    (b.simStep h).1 =
      ⟨{ b.surface_anomaly with intensity := 1 + (h : ℝ) / 12 },
       { b.altitude_anomaly with intensity := 1 + (h : ℝ) / 12 },
       b.baroclinic_zone⟩ := rfl

/-- The hour field of a combined step result is the supplied hour. -/
lemma BaroclinicCyclogenesis.simStep_snd_hour (b : BaroclinicCyclogenesis) (h : ℕ) :
    ((b.simStep h).2).hour = h := rfl

/-- A loop iteration ignores the stored intensities of both anomalies. -/
lemma BaroclinicCyclogenesis.simStep_intensity_irrel (b : BaroclinicCyclogenesis)
    (x y : ℝ) (h : ℕ) :
    BaroclinicCyclogenesis.simStep
        ⟨{ b.surface_anomaly with intensity := x },
         { b.altitude_anomaly with intensity := y },
         b.baroclinic_zone⟩ h =
      b.simStep h := rfl

/-- The result list of the loop ignores the incoming intensities. -/
lemma BaroclinicCyclogenesis.simFrom_snd_intensity_irrel (n : ℕ) :
    ∀ (b : BaroclinicCyclogenesis) (x y : ℝ) (s : ℕ),
      (BaroclinicCyclogenesis.simFrom
          ⟨{ b.surface_anomaly with intensity := x },
           { b.altitude_anomaly with intensity := y },
           b.baroclinic_zone⟩ s n).2 =
        (BaroclinicCyclogenesis.simFrom b s n).2 := by
  cases n with
  | zero => intro b x y s; rfl
  | succ n => intro b x y s; rfl

/-- The hour fields of the loop's results list the hours in order. -/
lemma BaroclinicCyclogenesis.simFrom_map_hour (n : ℕ) :
    ∀ (b : BaroclinicCyclogenesis) (s : ℕ),
      ((BaroclinicCyclogenesis.simFrom b s n).2).map DevelopmentResult.hour =
        List.range' s n := by
  induction n with
  | zero => intro b s; rfl
  | succ n ih =>
    intro b s
    simp only [BaroclinicCyclogenesis.simFrom, List.map_cons, List.range',
      BaroclinicCyclogenesis.simStep_snd_hour, ih]

/-- The k-th result of the loop is the pure step result at hour `s + k`. -/
lemma BaroclinicCyclogenesis.simFrom_snd_get (n : ℕ) :
    ∀ (b : BaroclinicCyclogenesis) (s k : ℕ), k < n →
      ((BaroclinicCyclogenesis.simFrom b s n).2).get? k = some ((b.simStep (s + k)).2) := by
  induction n with
  | zero => intro b s k hk; exact absurd hk (Nat.not_lt_zero k)
  | succ n ih =>
    intro b s k hk
    cases k with
    | zero =>
      simp only [BaroclinicCyclogenesis.simFrom, List.get?_cons_zero, Nat.add_zero]
    | succ k =>
      have hk' : k < n := Nat.lt_of_succ_lt_succ hk
      simp only [BaroclinicCyclogenesis.simFrom, List.get?_cons_succ]
      rw [ih ((b.simStep s).1) (s + 1) k hk']
      have harith : s + 1 + k = s + (k + 1) := by omega
      rw [harith]
      exact congrArg some
        (congrArg Prod.snd
          (BaroclinicCyclogenesis.simStep_intensity_irrel b (1 + (s : ℝ) / 12)
            (1 + (s : ℝ) / 12) (s + (k + 1))))

/-- The final state of a nonempty loop run: both intensities hold the value
for the last executed hour, everything else is unchanged. -/
lemma BaroclinicCyclogenesis.simFrom_fst_succ (n : ℕ) :
    ∀ (b : BaroclinicCyclogenesis) (s : ℕ),
      (BaroclinicCyclogenesis.simFrom b s (n + 1)).1 =
        ⟨{ b.surface_anomaly with intensity := 1 + ((s + n : ℕ) : ℝ) / 12 },
         { b.altitude_anomaly with intensity := 1 + ((s + n : ℕ) : ℝ) / 12 },
         b.baroclinic_zone⟩ := by
  induction n with
  | zero => intro b s; simp only [Nat.add_zero]; rfl
  | succ n ih =>
    intro b s
    have hstep : (BaroclinicCyclogenesis.simFrom b s (n + 1 + 1)).1 =
        (BaroclinicCyclogenesis.simFrom ((b.simStep s).1) (s + 1) (n + 1)).1 := rfl
    rw [hstep, ih ((b.simStep s).1) (s + 1)]
    have harith : s + 1 + n = s + (n + 1) := by omega
    rw [harith]
    rfl

/-- Successful scenario construction: all inputs valid, fields as built. -/
lemma BaroclinicCyclogenesis.new_builds (st ta lat : ℝ) (hl1 : -90 ≤ lat) (hl2 : lat ≤ 90)
    (hs1 : -50 ≤ st) (hs2 : st ≤ 50) (ha1 : -50 ≤ ta) (ha2 : ta ≤ 50) :
    BaroclinicCyclogenesis.new st ta lat =
      Except.ok ⟨⟨st, ⟨lat, 0, 1013⟩, decide (st > 0), 1, PhysicalConstants.default⟩,
                 ⟨ta, ⟨lat, 5000, 500⟩, decide (ta > 0), 1, PhysicalConstants.default⟩,
                 true⟩ := by
  unfold BaroclinicCyclogenesis.new
  simp only [Position.new_valid lat 0 1013 hl1 hl2 (by norm_num) (by norm_num) (by norm_num)
      (by norm_num),
    Position.new_valid lat 5000 500 hl1 hl2 (by norm_num) (by norm_num) (by norm_num)
      (by norm_num),
    ThermalAnomaly.new_accepts st ⟨lat, 0, 1013⟩ PhysicalConstants.default hs1 hs2,
    ThermalAnomaly.new_accepts ta ⟨lat, 5000, 500⟩ PhysicalConstants.default ha1 ha2]

/-- Scenario construction propagates an invalid latitude unchanged. -/
lemma BaroclinicCyclogenesis.new_propagates_lat (st ta lat : ℝ) (h : ¬(-90 ≤ lat ∧ lat ≤ 90)) :
    BaroclinicCyclogenesis.new st ta lat =
      Except.error (MeteoError.InvalidLatitude lat) := by
  unfold BaroclinicCyclogenesis.new
  rw [Position.new_rejects_lat lat 0 1013 h]

/-- Scenario construction propagates an invalid surface temperature unchanged. -/
lemma BaroclinicCyclogenesis.new_err_surface (st ta lat : ℝ) (hl : -90 ≤ lat ∧ lat ≤ 90)
    (h : ¬(-50 ≤ st ∧ st ≤ 50)) :
    BaroclinicCyclogenesis.new st ta lat =
      Except.error (MeteoError.InvalidTemperature st) := by
  unfold BaroclinicCyclogenesis.new
  simp only [Position.new_valid lat 0 1013 hl.1 hl.2 (by norm_num) (by norm_num) (by norm_num)
      (by norm_num),
    Position.new_valid lat 5000 500 hl.1 hl.2 (by norm_num) (by norm_num) (by norm_num)
      (by norm_num),
    ThermalAnomaly.new_err st ⟨lat, 0, 1013⟩ PhysicalConstants.default h]

/-- Scenario construction propagates an invalid altitude temperature unchanged. -/
lemma BaroclinicCyclogenesis.new_err_altitude (st ta lat : ℝ) (hl : -90 ≤ lat ∧ lat ≤ 90)
    (hs : -50 ≤ st ∧ st ≤ 50) (h : ¬(-50 ≤ ta ∧ ta ≤ 50)) :
    BaroclinicCyclogenesis.new st ta lat =
      Except.error (MeteoError.InvalidTemperature ta) := by
  unfold BaroclinicCyclogenesis.new
  simp only [Position.new_valid lat 0 1013 hl.1 hl.2 (by norm_num) (by norm_num) (by norm_num)
      (by norm_num),
    Position.new_valid lat 5000 500 hl.1 hl.2 (by norm_num) (by norm_num) (by norm_num)
      (by norm_num),
    ThermalAnomaly.new_accepts st ⟨lat, 0, 1013⟩ PhysicalConstants.default hs.1 hs.2,
    ThermalAnomaly.new_err ta ⟨lat, 5000, 500⟩ PhysicalConstants.default h]

/-- Inversion: a successful scenario construction determines every field. -/
lemma BaroclinicCyclogenesis.new_fields (st ta lat : ℝ) (b : BaroclinicCyclogenesis)
    (h : BaroclinicCyclogenesis.new st ta lat = Except.ok b) :
    b = ⟨⟨st, ⟨lat, 0, 1013⟩, decide (st > 0), 1, PhysicalConstants.default⟩,
         ⟨ta, ⟨lat, 5000, 500⟩, decide (ta > 0), 1, PhysicalConstants.default⟩,
         true⟩ := by
  by_cases hl : -90 ≤ lat ∧ lat ≤ 90
  · by_cases hs : -50 ≤ st ∧ st ≤ 50
    · by_cases hta : -50 ≤ ta ∧ ta ≤ 50
      · rw [BaroclinicCyclogenesis.new_builds st ta lat hl.1 hl.2 hs.1 hs.2 hta.1 hta.2] at h
        exact (Except.ok.inj h).symm
      · rw [BaroclinicCyclogenesis.new_err_altitude st ta lat hl hs hta] at h
        exact absurd h (by simp)
    · rw [BaroclinicCyclogenesis.new_err_surface st ta lat hl hs] at h
      exact absurd h (by simp)
  · rw [BaroclinicCyclogenesis.new_propagates_lat st ta lat hl] at h
    exact absurd h (by simp)

/-- Sample surface position used by concrete instantiations. -/
noncomputable def posS : Position := ⟨45, 0, 1013⟩

/-- Sample cyclonic surface anomaly used by concrete instantiations. -/
noncomputable def aS : ThermalAnomaly := ⟨5, posS, true, 1, PhysicalConstants.default⟩

/-- Sample scenario as built by `new 5 (-8) 45`. -/
noncomputable def bS : BaroclinicCyclogenesis :=
  ⟨⟨5, ⟨45, 0, 1013⟩, true, 1, PhysicalConstants.default⟩,
   ⟨-8, ⟨45, 5000, 500⟩, false, 1, PhysicalConstants.default⟩, true⟩

/-- Cyclonic anomaly constructed at the equator (latitude 0). -/
noncomputable def aLat0 : ThermalAnomaly := ⟨5, ⟨0, 0, 1013⟩, true, 1, PhysicalConstants.default⟩

/-- Non-cyclonic anomaly constructed with a zero temperature delta. -/
noncomputable def aZero : ThermalAnomaly := ⟨0, ⟨45, 0, 1013⟩, false, 1, PhysicalConstants.default⟩

/-- The sample scenario is what `new 5 (-8) 45` constructs. -/
lemma bS_new : BaroclinicCyclogenesis.new 5 (-8) 45 = Except.ok bS := by
  rw [BaroclinicCyclogenesis.new_builds 5 (-8) 45 (by norm_num) (by norm_num) (by norm_num)
    (by norm_num) (by norm_num) (by norm_num)]
  rw [show decide ((5 : ℝ) > 0) = true from decide_eq_true (by norm_num),
    show decide ((-8 : ℝ) > 0) = false from decide_eq_false (by norm_num)]
  rfl

/-- C4: `simulate_interaction N` returns exactly N records whose hour fields
take every integer value 0..N-1 in strictly increasing order, with no early
termination and no partial results. -/
theorem C4_hour_sequence (b : BaroclinicCyclogenesis) (n : ℕ) :
    ((b.simulate_interaction n).2).length = n ∧
    ((b.simulate_interaction n).2).map DevelopmentResult.hour = List.range n := by
  constructor
  · have hmap := BaroclinicCyclogenesis.simFrom_map_hour n b 0
    have hlen := congrArg List.length hmap
    simpa [BaroclinicCyclogenesis.simulate_interaction] using hlen
  · rw [BaroclinicCyclogenesis.simulate_interaction,
      BaroclinicCyclogenesis.simFrom_map_hour n b 0, List.range_eq_range']

/-- C5: Position creation succeeds exactly when all three bounds hold, and
otherwise reports only the first violated constraint in the order
latitude, altitude, pressure. -/
theorem C5_position_validation (lat alt p : ℝ) :
    ((∃ pos, Position.new lat alt p = Except.ok pos) ↔
       ((-90 ≤ lat ∧ lat ≤ 90) ∧ (-400 ≤ alt ∧ alt ≤ 20000) ∧ (100 ≤ p ∧ p ≤ 1100))) ∧
    (¬(-90 ≤ lat ∧ lat ≤ 90) →
       Position.new lat alt p = Except.error (MeteoError.InvalidLatitude lat)) ∧
    ((-90 ≤ lat ∧ lat ≤ 90) → (alt < -400 ∨ alt > 20000) →
       Position.new lat alt p = Except.error (MeteoError.InvalidAltitude alt)) ∧
    ((-90 ≤ lat ∧ lat ≤ 90) → (-400 ≤ alt ∧ alt ≤ 20000) → (p < 100 ∨ p > 1100) →
       Position.new lat alt p = Except.error (MeteoError.InvalidPressure p)) := by
  refine ⟨⟨?_, ?_⟩, ?_, ?_, ?_⟩
  · rintro ⟨pos, hpos⟩
    by_cases h1 : -90 ≤ lat ∧ lat ≤ 90
    · by_cases h2 : alt < -400 ∨ alt > 20000
      · rw [Position.new_err_alt lat alt p h1 h2] at hpos
        exact absurd hpos (by simp)
      · by_cases h3 : p < 100 ∨ p > 1100
        · rw [Position.new_err_pres lat alt p h1 h2 h3] at hpos
          exact absurd hpos (by simp)
        · push_neg at h2 h3
          exact ⟨h1, h2, h3⟩
    · rw [Position.new_rejects_lat lat alt p h1] at hpos
      exact absurd hpos (by simp)
  · rintro ⟨⟨h1, h2⟩, ⟨h3, h4⟩, h5, h6⟩
    exact ⟨_, Position.new_valid lat alt p h1 h2 h3 h4 h5 h6⟩
  · exact Position.new_rejects_lat lat alt p
  · exact Position.new_err_alt lat alt p
  · intro h1 h2 h3
    exact Position.new_err_pres lat alt p h1 (by push_neg; exact h2) h3

/-- C5 witness: a latitude violation is reported as InvalidLatitude even when
other fields are also out of range. -/
theorem C5_position_validation_witness :
    Position.new 100 (-500) 50 = Except.error (MeteoError.InvalidLatitude 100) :=
  (C5_position_validation 100 (-500) 50).2.1 (by norm_num)

/-- C6: ThermalAnomaly creation fails with InvalidTemperature exactly when the
delta is outside [-50, 50]; on success the anomaly is cyclonic iff the delta
is strictly positive and its intensity is 1. -/
theorem C6_thermal_validation (td : ℝ) (pos : Position) (c : PhysicalConstants) :
    ((td < -50 ∨ td > 50) →
       ThermalAnomaly.new td pos c = Except.error (MeteoError.InvalidTemperature td)) ∧
    (-50 ≤ td → td ≤ 50 →
       ∃ a, ThermalAnomaly.new td pos c = Except.ok a ∧
         (a.is_cyclonic = true ↔ td > 0) ∧ a.intensity = 1) := by
  constructor
  · intro h
    apply ThermalAnomaly.new_err
    rcases h with h | h
    · intro hc; linarith [hc.1]
    · intro hc; linarith [hc.2]
  · intro h1 h2
    refine ⟨_, ThermalAnomaly.new_accepts td pos c h1 h2, ?_, rfl⟩
    simp only [decide_eq_true_eq]

/-- C6 witness: a zero delta constructs successfully and is not cyclonic. -/
theorem C6_thermal_validation_witness :
    ∃ a, ThermalAnomaly.new 0 posS PhysicalConstants.default = Except.ok a ∧
      (a.is_cyclonic = true ↔ (0 : ℝ) > 0) ∧ a.intensity = 1 :=
  (C6_thermal_validation 0 posS PhysicalConstants.default).2 (by norm_num) (by norm_num)

/-- C7: scenario construction places the surface anomaly at
(latitude, 0, 1013) and the altitude anomaly at (latitude, 5000, 500), sets
baroclinic_zone to true, and propagates the first validation failure
unchanged (latitude, then surface temperature, then altitude temperature);
in particular new 60 (-8) 45 fails with InvalidTemperature 60. -/
theorem C7_scenario_construction :
    (∀ (st ta lat : ℝ) (b : BaroclinicCyclogenesis),
       BaroclinicCyclogenesis.new st ta lat = Except.ok b →
         b.surface_anomaly.position = ⟨lat, 0, 1013⟩ ∧
         b.altitude_anomaly.position = ⟨lat, 5000, 500⟩ ∧
         b.surface_anomaly.temperature_delta = st ∧
         b.altitude_anomaly.temperature_delta = ta ∧
         b.baroclinic_zone = true) ∧
    (∀ st ta lat : ℝ, ¬(-90 ≤ lat ∧ lat ≤ 90) →
       BaroclinicCyclogenesis.new st ta lat =
         Except.error (MeteoError.InvalidLatitude lat)) ∧
    (∀ st ta lat : ℝ, (-90 ≤ lat ∧ lat ≤ 90) → ¬(-50 ≤ st ∧ st ≤ 50) →
       BaroclinicCyclogenesis.new st ta lat =
         Except.error (MeteoError.InvalidTemperature st)) ∧
    (∀ st ta lat : ℝ, (-90 ≤ lat ∧ lat ≤ 90) → (-50 ≤ st ∧ st ≤ 50) →
       ¬(-50 ≤ ta ∧ ta ≤ 50) →
       BaroclinicCyclogenesis.new st ta lat =
         Except.error (MeteoError.InvalidTemperature ta)) ∧
    BaroclinicCyclogenesis.new 60 (-8) 45 =
      Except.error (MeteoError.InvalidTemperature 60) := by
  refine ⟨?_, ?_, ?_, ?_, ?_⟩
  · intro st ta lat b hb
    have hbe := BaroclinicCyclogenesis.new_fields st ta lat b hb
    subst hbe
    exact ⟨rfl, rfl, rfl, rfl, rfl⟩
  · intro st ta lat h
    exact BaroclinicCyclogenesis.new_propagates_lat st ta lat h
  · intro st ta lat hl h
    exact BaroclinicCyclogenesis.new_err_surface st ta lat hl h
  · intro st ta lat hl hs h
    exact BaroclinicCyclogenesis.new_err_altitude st ta lat hl hs h
  · exact BaroclinicCyclogenesis.new_err_surface 60 (-8) 45 (by norm_num) (by norm_num)

/-- C7 witness: an out-of-range latitude is propagated as InvalidLatitude. -/
theorem C7_scenario_construction_witness :
    BaroclinicCyclogenesis.new 5 (-8) 200 =
      Except.error (MeteoError.InvalidLatitude 200) :=
  C7_scenario_construction.2.1 5 (-8) 200 (by norm_num)

/-- C9: two independently constructed scenarios with identical inputs produce
identical result sequences for any number of steps. -/
theorem C9_determinism (st ta lat : ℝ) (n : ℕ) (b1 b2 : BaroclinicCyclogenesis)
    (h1 : BaroclinicCyclogenesis.new st ta lat = Except.ok b1)
    (h2 : BaroclinicCyclogenesis.new st ta lat = Except.ok b2) :
    (b1.simulate_interaction n).2 = (b2.simulate_interaction n).2 := by
  have hb : b1 = b2 := Except.ok.inj (h1.symm.trans h2)
  rw [hb]

/-- C9 witness: concrete identical constructions at (5, -8, 45). -/
theorem C9_determinism_witness :
    (bS.simulate_interaction 24).2 = (bS.simulate_interaction 24).2 :=
  C9_determinism 5 (-8) 45 24 bS bS bS_new bS_new

/-- C10: stepping overwrites the intensity regardless of its prior value, so a
develop result depends only on the hour and construction-time inputs, and
running simulate_interaction again on the resulting state reproduces the
same sequence. -/
theorem C10_history_independence :
    (∀ (a : ThermalAnomaly) (x : ℝ) (h : ℕ),
       ({ a with intensity := x } : ThermalAnomaly).develop_baroclinic_perturbation h =
         a.develop_baroclinic_perturbation h) ∧
    (∀ (a : ThermalAnomaly) (h : ℕ),
       (a.develop_baroclinic_perturbation h).1.intensity = 1 + (h : ℝ) / 12) ∧
    (∀ (b : BaroclinicCyclogenesis) (n : ℕ),
       ((b.simulate_interaction n).1.simulate_interaction n).2 =
         (b.simulate_interaction n).2) := by
  refine ⟨?_, ?_, ?_⟩
  · intro a x h
    exact ThermalAnomaly.develop_intensity_irrel a x h
  · intro a h
    rfl
  · intro b n
    cases n with
    | zero => rfl
    | succ n =>
      show ((BaroclinicCyclogenesis.simFrom b 0 (n + 1)).1.simFrom 0 (n + 1)).2 =
        (BaroclinicCyclogenesis.simFrom b 0 (n + 1)).2
      rw [BaroclinicCyclogenesis.simFrom_fst_succ n b 0]
      exact BaroclinicCyclogenesis.simFrom_snd_intensity_irrel (n + 1) b _ _ 0

/-- C1: every record of simulate_interaction equals the per-anomaly develop
results at that hour combined with the interaction factor, which is
1.5 * (1 + hour/24) when baroclinic_zone is true and 1.0 otherwise, with the
hour field equal to the loop index. -/
theorem C1_combined_record (b : BaroclinicCyclogenesis) (n h : ℕ) (hn : h < n) :
    ((b.simulate_interaction n).2).get? h =
      some ⟨((b.surface_anomaly.develop_baroclinic_perturbation h).2.vertical_velocity +
              (b.altitude_anomaly.develop_baroclinic_perturbation h).2.vertical_velocity) *
             (if b.baroclinic_zone then 1.5 * (1 + (h : ℝ) / 24) else 1),
            ((b.surface_anomaly.develop_baroclinic_perturbation h).2.relative_vorticity +
              (b.altitude_anomaly.develop_baroclinic_perturbation h).2.relative_vorticity) *
             (if b.baroclinic_zone then 1.5 * (1 + (h : ℝ) / 24) else 1),
            h⟩ := by
  rw [BaroclinicCyclogenesis.simulate_interaction,
    BaroclinicCyclogenesis.simFrom_snd_get n b 0 h hn, Nat.zero_add]
  rfl

/-- C1 witness: the record at hour 1 of a 3-step run of the sample scenario. -/
theorem C1_combined_record_witness :
    ((bS.simulate_interaction 3).2).get? 1 =
      some ⟨((bS.surface_anomaly.develop_baroclinic_perturbation 1).2.vertical_velocity +
              (bS.altitude_anomaly.develop_baroclinic_perturbation 1).2.vertical_velocity) *
             (if bS.baroclinic_zone then 1.5 * (1 + ((1 : ℕ) : ℝ) / 24) else 1),
            ((bS.surface_anomaly.develop_baroclinic_perturbation 1).2.relative_vorticity +
              (bS.altitude_anomaly.develop_baroclinic_perturbation 1).2.relative_vorticity) *
             (if bS.baroclinic_zone then 1.5 * (1 + ((1 : ℕ) : ℝ) / 24) else 1),
            1⟩ :=
  C1_combined_record bS 3 1 (by norm_num)

/-- Spec-side formula (C2): thermal wind
`(temperature_delta / base_temp * gravity * 1000) * (earth_omega * sin(latitude in radians))`,
negated when the anomaly is not cyclonic (not `td > 0`). -/
noncomputable def specThermalWind (td : ℝ) (pos : Position) (c : PhysicalConstants) : ℝ :=
  if td > 0 then
    td / c.base_temp * c.gravity * 1000 *
      (c.earth_omega * Real.sin (pos.latitude * Real.pi / 180))
  else
    -(td / c.base_temp * c.gravity * 1000 *
      (c.earth_omega * Real.sin (pos.latitude * Real.pi / 180)))

/-- Spec-side formula (C2): vertical velocity
`thermal_wind * 0.1 * sqrt(1000/pressure) * exp(-altitude/8000)`, sign-flipped
when `pressure <= 500`, then multiplied by the updated intensity `1 + hour/12`. -/
noncomputable def specVerticalVelocity (td : ℝ) (pos : Position) (c : PhysicalConstants)
    (h : ℕ) : ℝ :=
  (if pos.pressure ≤ 500 then
    -(specThermalWind td pos c * 0.1 * Real.sqrt (1000 / pos.pressure) *
      Real.exp (-pos.altitude / 8000))
  else
    specThermalWind td pos c * 0.1 * Real.sqrt (1000 / pos.pressure) *
      Real.exp (-pos.altitude / 8000)) * (1 + (h : ℝ) / 12)

/-- Spec-side formula (C3): relative vorticity
`(w / 500000) * intensity * altitude_factor * 1000` when cyclonic and its
negation otherwise, with altitude_factor 2 exactly when pressure < 500. -/
noncomputable def specRelativeVorticity (td : ℝ) (pos : Position) (intensity w : ℝ) : ℝ :=
  if td > 0 then
    w / 500000 * intensity * (if pos.pressure < 500 then 2 else 1) * 1000
  else
    -(w / 500000 * intensity * (if pos.pressure < 500 then 2 else 1) * 1000)

/-- C2: for every constructed anomaly and hour, the vertical velocity of
develop(hour) equals the spec formula. -/
theorem C2_vertical_velocity (td : ℝ) (pos : Position) (c : PhysicalConstants)
    (a : ThermalAnomaly) (h : ℕ)
    (ha : ThermalAnomaly.new td pos c = Except.ok a) :
    (a.develop_baroclinic_perturbation h).2.vertical_velocity =
      specVerticalVelocity td pos c h := by
  have hae := ThermalAnomaly.new_elim td pos c a ha
  subst hae
  simp only [ThermalAnomaly.develop_baroclinic_perturbation,
    ThermalAnomaly.compute_coriolis_force, specVerticalVelocity, specThermalWind,
    decide_eq_true_eq]
  rcases le_or_lt pos.pressure 500 with hp | hp
  · simp only [if_neg (not_lt.mpr hp), if_pos hp]
    by_cases htd : td > 0
    · simp only [if_pos htd]
      try ring
    · simp only [if_neg htd]
      try ring
  · simp only [if_pos hp, if_neg (not_le.mpr hp)]
    by_cases htd : td > 0
    · simp only [if_pos htd]
      try ring
    · simp only [if_neg htd]
      try ring

/-- C3: for every constructed anomaly and thermal-wind value, the relative
vorticity equals the spec formula with its boundary at pressure = 500. -/
theorem C3_relative_vorticity (td : ℝ) (pos : Position) (c : PhysicalConstants)
    (a : ThermalAnomaly) (w : ℝ)
    (ha : ThermalAnomaly.new td pos c = Except.ok a) :
    a.compute_relative_vorticity w = specRelativeVorticity td pos a.intensity w := by
  have hae := ThermalAnomaly.new_elim td pos c a ha
  subst hae
  simp only [ThermalAnomaly.compute_relative_vorticity, specRelativeVorticity,
    decide_eq_true_eq]
  by_cases htd : td > 0
  · simp only [if_pos htd]
  · simp only [if_neg htd]; ring

/-- The sample anomaly is what `ThermalAnomaly.new 5 posS default` constructs. -/
lemma aS_new : ThermalAnomaly.new 5 posS PhysicalConstants.default = Except.ok aS :=
  ThermalAnomaly.new_cyclonic 5 posS PhysicalConstants.default (by norm_num) (by norm_num)
    (by norm_num)

/-- C2 witness: the formula instantiated at the sample anomaly and hour 2. -/
theorem C2_vertical_velocity_witness :
    (aS.develop_baroclinic_perturbation 2).2.vertical_velocity =
      specVerticalVelocity 5 posS PhysicalConstants.default 2 :=
  C2_vertical_velocity 5 posS PhysicalConstants.default aS 2 aS_new

/-- C3 witness: the formula instantiated at the sample anomaly and w = 3. -/
theorem C3_relative_vorticity_witness :
    aS.compute_relative_vorticity 3 = specRelativeVorticity 5 posS aS.intensity 3 :=
  C3_relative_vorticity 5 posS PhysicalConstants.default aS 3 aS_new

/-- C8 counterexample: the stated sign policy fails on the code. At latitude 0
a constructed cyclonic anomaly with pressure > 500 has relative vorticity
exactly 0 at hour 0 (not strictly positive, since sin 0 = 0), and a
non-cyclonic anomaly with temperature_delta = 0 has relative vorticity
exactly 0 (not strictly negative). -/
theorem C8_counterexample :
    (ThermalAnomaly.new 5 ⟨0, 0, 1013⟩ PhysicalConstants.default = Except.ok aLat0 ∧
       aLat0.is_cyclonic = true ∧ aLat0.position.pressure > 500 ∧
       ¬(0 < (aLat0.develop_baroclinic_perturbation 0).2.relative_vorticity)) ∧
    (ThermalAnomaly.new 0 ⟨45, 0, 1013⟩ PhysicalConstants.default = Except.ok aZero ∧
       aZero.is_cyclonic = false ∧ aZero.position.pressure > 500 ∧
       ¬((aZero.develop_baroclinic_perturbation 0).2.relative_vorticity < 0)) := by
  refine ⟨⟨?_, rfl, ?_, ?_⟩, ?_, rfl, ?_, ?_⟩
  · exact ThermalAnomaly.new_cyclonic 5 ⟨0, 0, 1013⟩ PhysicalConstants.default (by norm_num)
      (by norm_num) (by norm_num)
  · exact (by norm_num : (1013 : ℝ) > 500)
  · simp [aLat0, ThermalAnomaly.develop_baroclinic_perturbation,
      ThermalAnomaly.compute_coriolis_force, ThermalAnomaly.compute_relative_vorticity]
  · exact ThermalAnomaly.new_noncyclonic 0 ⟨45, 0, 1013⟩ PhysicalConstants.default (by norm_num)
      (by norm_num) (by norm_num)
  · exact (by norm_num : (1013 : ℝ) > 500)
  · simp [aZero, ThermalAnomaly.develop_baroclinic_perturbation,
      ThermalAnomaly.compute_coriolis_force, ThermalAnomaly.compute_relative_vorticity]

/-- C8 (amended): for every anomaly constructed with the default constants at
a position with strictly positive latitude (at most 90) and pressure > 500,
the relative vorticity of develop(0) is strictly positive when
temperature_delta > 0 and strictly negative when temperature_delta < 0. -/
theorem C8_sign_policy (td : ℝ) (pos : Position) (a : ThermalAnomaly)
    (ha : ThermalAnomaly.new td pos PhysicalConstants.default = Except.ok a)
    (hlat1 : 0 < pos.latitude) (hlat2 : pos.latitude ≤ 90)
    (hp : pos.pressure > 500) :
    (0 < td → 0 < (a.develop_baroclinic_perturbation 0).2.relative_vorticity) ∧
    (td < 0 → (a.develop_baroclinic_perturbation 0).2.relative_vorticity < 0) := by
  have hsin : 0 < Real.sin (pos.latitude * Real.pi / 180) := by
    apply Real.sin_pos_of_pos_of_lt_pi
    · exact div_pos (mul_pos hlat1 Real.pi_pos) (by norm_num)
    · rw [div_lt_iff₀ (by norm_num : (0 : ℝ) < 180)]
      nlinarith [Real.pi_pos]
  have hae := ThermalAnomaly.new_elim td pos PhysicalConstants.default a ha
  subst hae
  constructor
  · intro htd
    simp only [ThermalAnomaly.develop_baroclinic_perturbation,
      ThermalAnomaly.compute_coriolis_force, ThermalAnomaly.compute_relative_vorticity,
      PhysicalConstants.default, decide_eq_true_eq]
    simp only [if_pos htd, if_neg (not_lt.mpr (le_of_lt hp))]
    push_cast
    ring_nf at hsin ⊢
    nlinarith [mul_pos htd hsin]
  · intro htd
    simp only [ThermalAnomaly.develop_baroclinic_perturbation,
      ThermalAnomaly.compute_coriolis_force, ThermalAnomaly.compute_relative_vorticity,
      PhysicalConstants.default, decide_eq_true_eq]
    simp only [if_neg (not_lt.mpr (le_of_lt htd)), if_neg (not_lt.mpr (le_of_lt hp))]
    push_cast
    ring_nf at hsin ⊢
    nlinarith [mul_pos (neg_pos.mpr htd) hsin]

/-- C8 witness: the sample cyclonic anomaly at latitude 45 has strictly
positive relative vorticity at hour 0. -/
theorem C8_sign_policy_witness :
    0 < (aS.develop_baroclinic_perturbation 0).2.relative_vorticity :=
  (C8_sign_policy 5 posS aS aS_new (by norm_num [posS]) (by norm_num [posS])
    (by norm_num [posS])).1 (by norm_num)
